import Mathlib

/-!
Shallow embedding of `src/ai.py`, a small Streamlit application that turns
narration text into a synthesized speech track and composes it over an
optional visual source (video, image, or a generated black frame).

Durations are rationals.  Calls into the external libraries (`edge_tts`,
`moviepy`, `PIL`) are reflected abstractly: the speech-synthesis request
becomes a value of `TTSRequest`, the moviepy clip pipeline becomes a value
of `ClipExpr`, and the side effects of the composer (opening handles,
writing the output file, closing handles) become an event trace, so that
the marshaling and orchestration logic of the Python source can be
reasoned about, including its failure paths.
-/

namespace Ai

/-- Python truthiness of an `Optional[str]` value: `None` and the empty
string are falsy, every other string is truthy. -/
def pyTruthy : Option String → Bool
  | none => false
  | some s => s != ""

/-- A synthesis request issued to the external text-to-speech service:
either plain narration text or an SSML markup envelope, together with the
voice passed to the service. -/
inductive TTSRequest where
  | plain (text : String) (voice : String)
  | markup (ssml : String) (voice : String)
deriving DecidableEq, Repr

/-- Embedding of `_synthesize` from `src/ai.py`: accumulates the prosody
attribute string from the optional `rate` and `pitch` strings (Python
truthiness on each), and issues an SSML request when the accumulated
string is non-empty, a plain request otherwise. -/
def _synthesize (text voice : String) (rate pitch : Option String) : TTSRequest :=
  let prosody :=
    (if pyTruthy rate then " rate=\"" ++ rate.getD "" ++ "\"" else "") ++
    (if pyTruthy pitch then " pitch=\"" ++ pitch.getD "" ++ "\"" else "")
  if prosody ≠ "" then
    TTSRequest.markup
      ("<speak version=\"1.0\" xmlns=\"http://www.w3.org/2001/10/synthesis\"><voice name=\""
        ++ voice ++ "\"><prosody" ++ prosody ++ ">" ++ text ++ "</prosody></voice></speak>")
      voice
  else
    TTSRequest.plain text voice

/-- Embedding of `synthesize_tts` from `src/ai.py`: formats each percent
parameter as `"<n>%"` when the integer is non-zero and passes `None`
otherwise (Python integer truthiness), then delegates to `_synthesize`. -/
def synthesize_tts (text voice : String) (rate_pct pitch_pct : Int) : TTSRequest :=
  let rate := if rate_pct ≠ 0 then some (toString rate_pct ++ "%") else none
  let pitch := if pitch_pct ≠ 0 then some (toString pitch_pct ++ "%") else none
  _synthesize text voice rate pitch

/-- The synthesis request as the specification describes it: plain text when
both percentages are zero, otherwise an SSML envelope whose prosody element
carries exactly the non-zero parameters as `rate="<n>%"` / `pitch="<n>%"`
attributes, scoped inside the voice element naming the chosen voice. -/
def spec_tts_request (text voice : String) (rate_pct pitch_pct : Int) : TTSRequest :=
  if rate_pct = 0 ∧ pitch_pct = 0 then
    TTSRequest.plain text voice
  else
    TTSRequest.markup
      ("<speak version=\"1.0\" xmlns=\"http://www.w3.org/2001/10/synthesis\"><voice name=\""
        ++ voice ++ "\"><prosody"
        ++ (if rate_pct ≠ 0 then " rate=\"" ++ (toString rate_pct ++ "%") ++ "\"" else "")
        ++ (if pitch_pct ≠ 0 then " pitch=\"" ++ (toString pitch_pct ++ "%") ++ "\"" else "")
        ++ ">" ++ text ++ "</prosody></voice></speak>")
      voice

theorem str_append_length (a b : String) : (a ++ b).length = a.length + b.length :=
  String.length_append a b

theorem str_ne_empty_of_length_pos (s : String) (h : 0 < s.length) : s ≠ "" := by
  intro he
  rw [he] at h
  simp at h

theorem append_pct_ne_empty (s : String) : s ++ "%" ≠ "" := by
  apply str_ne_empty_of_length_pos
  rw [str_append_length]
  have h1 : ("%" : String).length = 1 := rfl
  omega

theorem rateAttrNonempty (t : String) : " rate=\"" ++ t ≠ "" := by
  apply str_ne_empty_of_length_pos
  rw [str_append_length]
  have h1 : (" rate=\"" : String).length = 7 := rfl
  omega

theorem pitchAttrNonempty (t : String) : " pitch=\"" ++ t ≠ "" := by
  apply str_ne_empty_of_length_pos
  rw [str_append_length]
  have h1 : (" pitch=\"" : String).length = 8 := rfl
  omega

/-- C4: for every synthesis request, if both percentages are zero the request
sent to the speech service is the plain narration text with no prosody
markup; otherwise it is an SSML envelope in which exactly the non-zero
parameters appear as `rate="<n>%"` / `pitch="<n>%"` attributes on a prosody
element scoped inside the voice element naming the chosen voice. -/
theorem C4_synthesis_request (text voice : String) (rate_pct pitch_pct : Int) :
    synthesize_tts text voice rate_pct pitch_pct = spec_tts_request text voice rate_pct pitch_pct := by
  unfold synthesize_tts _synthesize spec_tts_request
  by_cases hr : rate_pct = 0 <;> by_cases hp : pitch_pct = 0 <;>
    simp [hr, hp, pyTruthy, append_pct_ne_empty, rateAttrNonempty, pitchAttrNonempty,
      String.append_assoc]

/-- The code points Python's `str.isspace()` accepts, which are exactly the
characters a no-argument `str.strip()` removes: the ASCII whitespace
characters and separator controls (tab, LF, VT, FF, CR, FS, GS, RS, US,
space), NEL, no-break space, Ogham space mark, the Unicode space separators
U+2000–U+200A, line and paragraph separators, narrow no-break space, medium
mathematical space, and ideographic space. -/
def pyWhitespace : List Nat :=
  [0x09, 0x0A, 0x0B, 0x0C, 0x0D, 0x1C, 0x1D, 0x1E, 0x1F, 0x20, 0x85, 0xA0,
   0x1680, 0x2000, 0x2001, 0x2002, 0x2003, 0x2004, 0x2005, 0x2006, 0x2007,
   0x2008, 0x2009, 0x200A, 0x2028, 0x2029, 0x202F, 0x205F, 0x3000]

/-- Whether Python's `str.strip()` with no arguments strips this character. -/
def pyIsSpace (c : Char) : Bool :=
  pyWhitespace.contains c.toNat

/-- Python's `str.strip()`: drop whitespace from both ends of the string. -/
def pyStrip (s : String) : String :=
  String.mk (((s.data.dropWhile pyIsSpace).reverse.dropWhile pyIsSpace).reverse)

/-- Outcome of pressing the Generate Video button: either the empty-text
input error is reported, or synthesis is attempted with the given request.
The error constructor carries no request: no synthesis call happens there. -/
inductive HandlerStep where
  | inputError
  | synthesis (req : TTSRequest)
deriving DecidableEq, Repr

/-- Embedding of the `st.button("Generate Video")` handler from
`src/ai.py` up to the synthesis call: `if not text_input.strip():` report
an input error, otherwise call `synthesize_tts` on the original text. -/
def generate_button_handler (text_input voice : String) (rate pitch : Int) : HandlerStep :=
  if pyStrip text_input = "" then
    HandlerStep.inputError
  else
    HandlerStep.synthesis (synthesize_tts text_input voice rate pitch)

theorem pyStrip_eq_empty_iff (s : String) :
    pyStrip s = "" ↔ s.data.all pyIsSpace = true := by
  unfold pyStrip
  constructor
  · intro h
    have hdata : ((s.data.dropWhile pyIsSpace).reverse.dropWhile pyIsSpace).reverse = [] :=
      congrArg String.data h
    rw [List.reverse_eq_nil_iff, List.dropWhile_eq_nil_iff] at hdata
    rw [List.all_eq_true]
    intro x hx
    have hsplit : x ∈ s.data.takeWhile pyIsSpace ++ s.data.dropWhile pyIsSpace := by
      rw [List.takeWhile_append_dropWhile]
      exact hx
    rcases List.mem_append.mp hsplit with h1 | h1
    · exact List.mem_takeWhile_imp h1
    · exact hdata x (List.mem_reverse.mpr h1)
  · intro h
    rw [List.all_eq_true] at h
    have h1 : s.data.dropWhile pyIsSpace = [] := List.dropWhile_eq_nil_iff.mpr (fun x hx => h x hx)
    rw [h1]
    rfl

/-- C7: for every narration text that is empty or consists only of
whitespace, the button handler reports the input error and attempts no
synthesis call; for every other text, synthesis proceeds with that text. -/
theorem C7_empty_text_rejected (text voice : String) (rate pitch : Int) :
    generate_button_handler text voice rate pitch =
      (if text.data.all pyIsSpace then HandlerStep.inputError
       else HandlerStep.synthesis (synthesize_tts text voice rate pitch)) := by
  unfold generate_button_handler
  by_cases h : text.data.all pyIsSpace
  · rw [if_pos ((pyStrip_eq_empty_iff text).mpr h), if_pos h]
  · rw [if_neg (fun he => h ((pyStrip_eq_empty_iff text).mp he)), if_neg h]

/-- A moviepy clip pipeline as built by `create_video_with_voiceover`.
`concatCopies c n` reflects `concatenate_videoclips([c] * n)`, the only form
of concatenation the source uses.  Source clips carry the native duration
and frame size the library would report for the underlying file. -/
inductive ClipExpr where
  | videoFile (path : String) (dur w h : ℚ)
  | imageFile (path : String) (w h : ℚ)
  | blackFrame (w h : ℚ)
  | concatCopies (c : ClipExpr) (n : ℕ)
  | subclip (c : ClipExpr) (tStart tEnd : ℚ)
  | setAudio (c : ClipExpr) (audioPath : String)
  | setDuration (c : ClipExpr) (d : ℚ)
  | resizeHeight (c : ClipExpr) (h : ℚ)
deriving DecidableEq, Repr

/-- Duration of a clip pipeline, following moviepy's semantics: a subclip
lasts from its start to its end, `set_duration` overrides, concatenation
adds, and a bare image clip has no duration until one is set. -/
def ClipExpr.clipDuration : ClipExpr → ℚ
  | .videoFile _ d _ _ => d
  | .imageFile _ _ _ => 0
  | .blackFrame _ _ => 0
  | .concatCopies c n => (n : ℚ) * c.clipDuration
  | .subclip _ a b => b - a
  | .setAudio c _ => c.clipDuration
  | .setDuration _ d => d
  | .resizeHeight c _ => c.clipDuration

/-- Whether any resize operation occurs anywhere in the pipeline. -/
def ClipExpr.hasResize : ClipExpr → Bool
  | .videoFile _ _ _ _ => false
  | .imageFile _ _ _ => false
  | .blackFrame _ _ => false
  | .concatCopies c _ => c.hasResize
  | .subclip c _ _ => c.hasResize
  | .setAudio c _ => c.hasResize
  | .setDuration c _ => c.hasResize
  | .resizeHeight _ _ => true

/-- Whether any concatenation occurs anywhere in the pipeline. -/
def ClipExpr.hasConcat : ClipExpr → Bool
  | .videoFile _ _ _ _ => false
  | .imageFile _ _ _ => false
  | .blackFrame _ _ => false
  | .concatCopies _ _ => true
  | .subclip c _ _ => c.hasConcat
  | .setAudio c _ => c.hasConcat
  | .setDuration c _ => c.hasConcat
  | .resizeHeight c _ => c.hasConcat

/-- The source clip (video file, image file or generated frame) feeding the
pipeline. -/
def ClipExpr.baseSource : ClipExpr → ClipExpr
  | .concatCopies c _ => c.baseSource
  | .subclip c _ _ => c.baseSource
  | .setAudio c _ => c.baseSource
  | .setDuration c _ => c.baseSource
  | .resizeHeight c _ => c.baseSource
  | c => c

/-- Rendered frame height of the pipeline: a resize overrides the height of
everything beneath it. -/
def ClipExpr.renderHeight : ClipExpr → ℚ
  | .videoFile _ _ _ h => h
  | .imageFile _ _ h => h
  | .blackFrame _ h => h
  | .concatCopies c _ => c.renderHeight
  | .subclip c _ _ => c.renderHeight
  | .setAudio c _ => c.renderHeight
  | .setDuration c _ => c.renderHeight
  | .resizeHeight _ h => h

/-- Rendered frame width of the pipeline: a resize to a given height scales
the width so the aspect ratio is preserved. -/
def ClipExpr.renderWidth : ClipExpr → ℚ
  | .videoFile _ _ w _ => w
  | .imageFile _ w _ => w
  | .blackFrame w _ => w
  | .concatCopies c _ => c.renderWidth
  | .subclip c _ _ => c.renderWidth
  | .setAudio c _ => c.renderWidth
  | .setDuration c _ => c.renderWidth
  | .resizeHeight c h => c.renderWidth * h / c.renderHeight

/-- Whether the pipeline has the shape "resize to height 720 directly under
the audio attach", i.e. the visual track was normalised to height 720
immediately before the audio was attached. -/
def ClipExpr.resizedTo720BeforeAudio : ClipExpr → Bool
  | .setAudio (.resizeHeight _ h) _ => h == 720
  | _ => false

/-- Behaviour of the external world during one run of the composer: what the
media libraries report for each file and whether each fallible call
succeeds.  A run of the Python function is deterministic given this data. -/
structure MediaEnv where
  /-- `AudioFileClip(audio_path)` succeeds. -/
  audioOpenOk : Bool
  /-- Duration moviepy reports for the audio file. -/
  audioDuration : ℚ
  /-- `VideoFileClip(video_path)` succeeds. -/
  videoOpenOk : Bool
  /-- Native duration of the supplied video file. -/
  videoDuration : ℚ
  /-- Native frame width of the supplied video file. -/
  videoWidth : ℚ
  /-- Native frame height of the supplied video file. -/
  videoHeight : ℚ
  /-- `ImageClip(image_path)` succeeds for the supplied image. -/
  imageOpenOk : Bool
  /-- Native width of the supplied image. -/
  imageWidth : ℚ
  /-- Native height of the supplied image. -/
  imageHeight : ℚ
  /-- The encoder itself does not fail. -/
  encoderOk : Bool
deriving DecidableEq, Repr

/-- One `write_videofile` call: the clip pipeline handed to the encoder and
the encoding parameters of the call.  `fps` is `none` when the source passes
no fps argument (the video branch, which keeps the source frame rate). -/
structure WriteRecord where
  clip : ClipExpr
  outPath : String
  fps : Option ℕ
  codec : String
  audioCodec : String
deriving DecidableEq, Repr

/-- Observable side effects of one composer run, in program order. -/
inductive Event where
  | openAudio
  | openVideo
  | openImage
  | writeFile
  | closeClip
  | closeAudio
deriving DecidableEq, Repr

/-- Outcome of one composer run: the value returned to the caller (`none`
when an exception propagated), the `write_videofile` call that was issued
(if control reached it), and the event trace of the run. -/
structure ComposeTrace where
  result : Option (String × ℚ)
  written : Option WriteRecord
  events : List Event
deriving DecidableEq, Repr

/-- Models the external encoder call `write_videofile`: it raises when the
encoder fails or when asked to render a clip of non-positive duration
(zero frames to encode); otherwise it writes the output file. -/
def writeOk (env : MediaEnv) (c : ClipExpr) : Bool :=
  env.encoderOk && decide (0 < c.clipDuration)

/-- Embedding of `create_video_with_voiceover` from `src/ai.py`.  Mirrors
the Python control flow statement by statement: open the audio clip, branch
on the truthiness of `video_path`, in the video branch loop-and-trim or
trim, in the other branch build an image clip (from the upload or from a
generated 1280×720 black frame), set duration and resize to height 720,
attach the audio, write the file, and close the final clip and the audio
clip.  A raising library call ends the run at that point, exactly as an
uncaught Python exception would: later statements (including the `close`
calls) do not run. -/
def create_video_with_voiceover (env : MediaEnv) (audio_path : String)
    (video_path image_path : Option String) (out_path : String) : ComposeTrace :=
  if env.audioOpenOk = false then
    { result := none, written := none, events := [] }
  else
    let duration := env.audioDuration
    if pyTruthy video_path then
      if env.videoOpenOk = false then
        { result := none, written := none, events := [Event.openAudio] }
      else
        let src := ClipExpr.videoFile (video_path.getD "") env.videoDuration
          env.videoWidth env.videoHeight
        if env.videoDuration < duration ∧ env.videoDuration = 0 then
          -- `duration // video.duration` raises ZeroDivisionError
          { result := none, written := none, events := [Event.openAudio, Event.openVideo] }
        else
          let video :=
            if env.videoDuration < duration then
              let n : ℤ := ⌊duration / env.videoDuration⌋ + 1
              ClipExpr.subclip (ClipExpr.concatCopies src n.toNat) 0 duration
            else
              ClipExpr.subclip src 0 duration
          let video := ClipExpr.setAudio video audio_path
          let wr : WriteRecord :=
            { clip := video, outPath := out_path, fps := none,
              codec := "libx264", audioCodec := "aac" }
          if writeOk env video then
            { result := some (out_path, duration), written := some wr,
              events := [Event.openAudio, Event.openVideo, Event.writeFile,
                Event.closeClip, Event.closeAudio] }
          else
            { result := none, written := some wr,
              events := [Event.openAudio, Event.openVideo, Event.writeFile] }
    else
      let base :=
        if pyTruthy image_path then
          if env.imageOpenOk = false then
            none
          else
            some (ClipExpr.imageFile (image_path.getD "") env.imageWidth env.imageHeight)
        else
          some (ClipExpr.blackFrame 1280 720)
      match base with
      | none => { result := none, written := none, events := [Event.openAudio] }
      | some b =>
        let clip := ClipExpr.resizeHeight (ClipExpr.setDuration b duration) 720
        let clip := ClipExpr.setAudio clip audio_path
        let wr : WriteRecord :=
          { clip := clip, outPath := out_path, fps := some 24,
            codec := "libx264", audioCodec := "aac" }
        if writeOk env clip then
          { result := some (out_path, duration), written := some wr,
            events := [Event.openAudio, Event.openImage, Event.writeFile,
              Event.closeClip, Event.closeAudio] }
        else
          { result := none, written := some wr,
            events := [Event.openAudio, Event.openImage, Event.writeFile] }

/-- A concrete environment: a healthy run whose supplied video (2 s) is
shorter than the narration (5 s). -/
def envShortVideo : MediaEnv :=
  { audioOpenOk := true, audioDuration := 5, videoOpenOk := true, videoDuration := 2,
    videoWidth := 640, videoHeight := 480, imageOpenOk := true, imageWidth := 800,
    imageHeight := 600, encoderOk := true }

/-- C1: for every audio duration d > 0 and every supplied video whose
positive native duration is strictly less than d, the composer computes a
repeat count of ⌊d / videoDuration⌋ + 1, concatenates exactly that many
copies of the clip, and trims the concatenation to exactly d: the
concatenation covers at least d (no partial loop falls short) and the
trimmed visual track lasts exactly d (never exceeds d). -/
theorem C1_loop_and_trim (env : MediaEnv) (audio_path out_path vp : String)
    (image_path : Option String)
    (hao : env.audioOpenOk = true) (hvo : env.videoOpenOk = true)
    (henc : env.encoderOk = true) (hvp : vp ≠ "")
    (hd : 0 < env.audioDuration) (hv : 0 < env.videoDuration)
    (hlt : env.videoDuration < env.audioDuration) :
    ∃ n : ℕ, ∃ wr : WriteRecord,
      (n : ℤ) = ⌊env.audioDuration / env.videoDuration⌋ + 1 ∧
      (create_video_with_voiceover env audio_path (some vp) image_path out_path).written
        = some wr ∧
      wr.clip = ClipExpr.setAudio
        (ClipExpr.subclip
          (ClipExpr.concatCopies
            (ClipExpr.videoFile vp env.videoDuration env.videoWidth env.videoHeight) n)
          0 env.audioDuration)
        audio_path ∧
      env.audioDuration ≤ (n : ℚ) * env.videoDuration ∧
      wr.clip.clipDuration = env.audioDuration := by
  have hfloor : (0:ℤ) ≤ ⌊env.audioDuration / env.videoDuration⌋ :=
    Int.floor_nonneg.mpr (div_nonneg hd.le hv.le)
  have hz : ¬(env.videoDuration < env.audioDuration ∧ env.videoDuration = 0) := by
    rintro ⟨_, h0⟩
    exact absurd h0 (ne_of_gt hv)
  refine ⟨(⌊env.audioDuration / env.videoDuration⌋ + 1).toNat,
    { clip := ClipExpr.setAudio (ClipExpr.subclip (ClipExpr.concatCopies
        (ClipExpr.videoFile vp env.videoDuration env.videoWidth env.videoHeight)
        (⌊env.audioDuration / env.videoDuration⌋ + 1).toNat) 0 env.audioDuration) audio_path,
      outPath := out_path, fps := none, codec := "libx264", audioCodec := "aac" },
    ?_, ?_, rfl, ?_, ?_⟩
  · rw [Int.toNat_of_nonneg (by omega)]
  · unfold create_video_with_voiceover
    simp [hao, hvo, pyTruthy, hvp, hz, hlt, hv.ne', writeOk, ClipExpr.clipDuration, henc, hd]
  · have hc : (((⌊env.audioDuration / env.videoDuration⌋ + 1).toNat : ℕ) : ℚ)
        = (⌊env.audioDuration / env.videoDuration⌋ : ℚ) + 1 := by
      rw [← Int.cast_natCast (R := ℚ), Int.toNat_of_nonneg (by omega)]
      push_cast
      ring
    rw [hc]
    have hqlt : env.audioDuration / env.videoDuration
        < (⌊env.audioDuration / env.videoDuration⌋ : ℚ) + 1 :=
      Int.lt_floor_add_one _
    have hrepr : env.audioDuration / env.videoDuration * env.videoDuration
        = env.audioDuration :=
      div_mul_cancel₀ env.audioDuration (ne_of_gt hv)
    calc env.audioDuration
        = env.audioDuration / env.videoDuration * env.videoDuration := hrepr.symm
      _ ≤ ((⌊env.audioDuration / env.videoDuration⌋ : ℚ) + 1) * env.videoDuration :=
          mul_le_mul_of_nonneg_right hqlt.le hv.le
  · simp [ClipExpr.clipDuration]

theorem C1_loop_and_trim_witness :
    envShortVideo.audioOpenOk = true ∧ envShortVideo.videoOpenOk = true ∧
    envShortVideo.encoderOk = true ∧ "clip.mp4" ≠ "" ∧
    0 < envShortVideo.audioDuration ∧ 0 < envShortVideo.videoDuration ∧
    envShortVideo.videoDuration < envShortVideo.audioDuration ∧
    (∃ n : ℕ, ∃ wr : WriteRecord,
      (n : ℤ) = ⌊envShortVideo.audioDuration / envShortVideo.videoDuration⌋ + 1 ∧
      (create_video_with_voiceover envShortVideo "voice.mp3" (some "clip.mp4") none
        "out.mp4").written = some wr ∧
      wr.clip = ClipExpr.setAudio
        (ClipExpr.subclip
          (ClipExpr.concatCopies
            (ClipExpr.videoFile "clip.mp4" envShortVideo.videoDuration
              envShortVideo.videoWidth envShortVideo.videoHeight) n)
          0 envShortVideo.audioDuration)
        "voice.mp3" ∧
      envShortVideo.audioDuration ≤ (n : ℚ) * envShortVideo.videoDuration ∧
      wr.clip.clipDuration = envShortVideo.audioDuration) :=
  ⟨rfl, rfl, rfl, by decide, by norm_num [envShortVideo], by norm_num [envShortVideo],
    by norm_num [envShortVideo],
    C1_loop_and_trim envShortVideo "voice.mp3" "out.mp4" "clip.mp4" none rfl rfl rfl
      (by decide) (by norm_num [envShortVideo]) (by norm_num [envShortVideo])
      (by norm_num [envShortVideo])⟩

/-- A concrete environment: a healthy run whose supplied video (12 s) is at
least as long as the narration (5 s). -/
def envLongVideo : MediaEnv :=
  { audioOpenOk := true, audioDuration := 5, videoOpenOk := true, videoDuration := 12,
    videoWidth := 640, videoHeight := 480, imageOpenOk := true, imageWidth := 800,
    imageHeight := 600, encoderOk := true }

/-- C3: for every audio duration d > 0 and every supplied video whose native
duration is at least d, the composer's visual track is a trim of the
original video starting at time 0 with length exactly d, with no
concatenation performed. -/
theorem C3_trim_directly (env : MediaEnv) (audio_path out_path vp : String)
    (image_path : Option String)
    (hao : env.audioOpenOk = true) (hvo : env.videoOpenOk = true)
    (henc : env.encoderOk = true) (hvp : vp ≠ "")
    (hd : 0 < env.audioDuration)
    (hge : env.audioDuration ≤ env.videoDuration) :
    ∃ wr : WriteRecord,
      (create_video_with_voiceover env audio_path (some vp) image_path out_path).written
        = some wr ∧
      wr.clip = ClipExpr.setAudio
        (ClipExpr.subclip
          (ClipExpr.videoFile vp env.videoDuration env.videoWidth env.videoHeight)
          0 env.audioDuration)
        audio_path ∧
      wr.clip.hasConcat = false ∧
      wr.clip.clipDuration = env.audioDuration := by
  have hnlt : ¬ env.videoDuration < env.audioDuration := not_lt.mpr hge
  refine ⟨{ clip := ClipExpr.setAudio (ClipExpr.subclip
              (ClipExpr.videoFile vp env.videoDuration env.videoWidth env.videoHeight)
              0 env.audioDuration) audio_path,
            outPath := out_path, fps := none, codec := "libx264", audioCodec := "aac" },
    ?_, rfl, ?_, ?_⟩
  · unfold create_video_with_voiceover
    simp [hao, hvo, pyTruthy, hvp, hnlt, writeOk, ClipExpr.clipDuration, henc, hd]
  · simp [ClipExpr.hasConcat]
  · simp [ClipExpr.clipDuration]

theorem C3_trim_directly_witness :
    envLongVideo.audioOpenOk = true ∧ envLongVideo.videoOpenOk = true ∧
    envLongVideo.encoderOk = true ∧ "clip.mp4" ≠ "" ∧
    0 < envLongVideo.audioDuration ∧
    envLongVideo.audioDuration ≤ envLongVideo.videoDuration ∧
    (∃ wr : WriteRecord,
      (create_video_with_voiceover envLongVideo "voice.mp3" (some "clip.mp4") none
        "out.mp4").written = some wr ∧
      wr.clip = ClipExpr.setAudio
        (ClipExpr.subclip
          (ClipExpr.videoFile "clip.mp4" envLongVideo.videoDuration
            envLongVideo.videoWidth envLongVideo.videoHeight)
          0 envLongVideo.audioDuration)
        "voice.mp3" ∧
      wr.clip.hasConcat = false ∧
      wr.clip.clipDuration = envLongVideo.audioDuration) :=
  ⟨rfl, rfl, rfl, by decide, by norm_num [envLongVideo], by norm_num [envLongVideo],
    C3_trim_directly envLongVideo "voice.mp3" "out.mp4" "clip.mp4" none rfl rfl rfl
      (by decide) (by norm_num [envLongVideo]) (by norm_num [envLongVideo])⟩

/-- A concrete environment: a healthy run with no supplied visual. -/
def envNoVisual : MediaEnv :=
  { audioOpenOk := true, audioDuration := 5, videoOpenOk := true, videoDuration := 0,
    videoWidth := 0, videoHeight := 0, imageOpenOk := true, imageWidth := 0,
    imageHeight := 0, encoderOk := true }

/-- C5: for every audio duration d > 0, when no visual source is supplied
the composer builds a solid black 1280×720 frame, holds it for exactly d
(the track's duration is d), and encodes the output at a fixed 24 fps; the
rendered frame stays 1280×720 after the height-720 normalization. -/
theorem C5_black_frame (env : MediaEnv) (audio_path out_path : String)
    (hao : env.audioOpenOk = true) (henc : env.encoderOk = true)
    (hd : 0 < env.audioDuration) :
    ∃ wr : WriteRecord,
      (create_video_with_voiceover env audio_path none none out_path).written = some wr ∧
      wr.clip = ClipExpr.setAudio
        (ClipExpr.resizeHeight
          (ClipExpr.setDuration (ClipExpr.blackFrame 1280 720) env.audioDuration) 720)
        audio_path ∧
      wr.fps = some 24 ∧
      wr.clip.clipDuration = env.audioDuration ∧
      wr.clip.renderWidth = 1280 ∧
      wr.clip.renderHeight = 720 ∧
      (create_video_with_voiceover env audio_path none none out_path).result
        = some (out_path, env.audioDuration) := by
  refine ⟨{ clip := ClipExpr.setAudio
              (ClipExpr.resizeHeight
                (ClipExpr.setDuration (ClipExpr.blackFrame 1280 720) env.audioDuration) 720)
              audio_path,
            outPath := out_path, fps := some 24, codec := "libx264", audioCodec := "aac" },
    ?_, rfl, rfl, ?_, ?_, ?_, ?_⟩
  · unfold create_video_with_voiceover
    simp [hao, pyTruthy, writeOk, ClipExpr.clipDuration, henc, hd]
  · simp [ClipExpr.clipDuration]
  · norm_num [ClipExpr.renderWidth, ClipExpr.renderHeight]
  · simp [ClipExpr.renderHeight]
  · unfold create_video_with_voiceover
    simp [hao, pyTruthy, writeOk, ClipExpr.clipDuration, henc, hd]

theorem C5_black_frame_witness :
    envNoVisual.audioOpenOk = true ∧ envNoVisual.encoderOk = true ∧
    0 < envNoVisual.audioDuration ∧
    (∃ wr : WriteRecord,
      (create_video_with_voiceover envNoVisual "voice.mp3" none none "out.mp4").written
        = some wr ∧
      wr.clip = ClipExpr.setAudio
        (ClipExpr.resizeHeight
          (ClipExpr.setDuration (ClipExpr.blackFrame 1280 720) envNoVisual.audioDuration) 720)
        "voice.mp3" ∧
      wr.fps = some 24 ∧
      wr.clip.clipDuration = envNoVisual.audioDuration ∧
      wr.clip.renderWidth = 1280 ∧
      wr.clip.renderHeight = 720 ∧
      (create_video_with_voiceover envNoVisual "voice.mp3" none none "out.mp4").result
        = some ("out.mp4", envNoVisual.audioDuration)) :=
  ⟨rfl, rfl, by norm_num [envNoVisual],
    C5_black_frame envNoVisual "voice.mp3" "out.mp4" rfl rfl (by norm_num [envNoVisual])⟩

/-- C2: for every audio duration d > 0 and every visual source (supplied
video, supplied image, or none), a successful run of the composer writes a
clip whose duration is exactly d, the audio artifact's duration, and
returns that duration to the caller. -/
theorem C2_output_duration (env : MediaEnv) (audio_path out_path : String)
    (video_path image_path : Option String)
    (hao : env.audioOpenOk = true) (henc : env.encoderOk = true)
    (hd : 0 < env.audioDuration)
    (hvid : pyTruthy video_path = true → env.videoOpenOk = true ∧ 0 < env.videoDuration)
    (himg : pyTruthy video_path = false → pyTruthy image_path = true →
      env.imageOpenOk = true) :
    ∃ wr : WriteRecord,
      (create_video_with_voiceover env audio_path video_path image_path out_path).written
        = some wr ∧
      wr.clip.clipDuration = env.audioDuration ∧
      (create_video_with_voiceover env audio_path video_path image_path out_path).result
        = some (out_path, env.audioDuration) := by
  cases hb : pyTruthy video_path with
  | true =>
    obtain ⟨hvo, hv⟩ := hvid hb
    have hz : ¬(env.videoDuration < env.audioDuration ∧ env.videoDuration = 0) := by
      rintro ⟨_, h0⟩
      exact absurd h0 (ne_of_gt hv)
    by_cases hlt : env.videoDuration < env.audioDuration
    · refine ⟨{ clip := ClipExpr.setAudio (ClipExpr.subclip (ClipExpr.concatCopies
                  (ClipExpr.videoFile (video_path.getD "") env.videoDuration
                    env.videoWidth env.videoHeight)
                  (⌊env.audioDuration / env.videoDuration⌋ + 1).toNat)
                  0 env.audioDuration) audio_path,
                outPath := out_path, fps := none, codec := "libx264", audioCodec := "aac" },
        ?_, ?_, ?_⟩
      · unfold create_video_with_voiceover
        simp [hao, hb, hvo, hz, hlt, hv.ne', writeOk, ClipExpr.clipDuration, henc, hd]
      · simp [ClipExpr.clipDuration]
      · unfold create_video_with_voiceover
        simp [hao, hb, hvo, hz, hlt, hv.ne', writeOk, ClipExpr.clipDuration, henc, hd]
    · refine ⟨{ clip := ClipExpr.setAudio (ClipExpr.subclip
                  (ClipExpr.videoFile (video_path.getD "") env.videoDuration
                    env.videoWidth env.videoHeight)
                  0 env.audioDuration) audio_path,
                outPath := out_path, fps := none, codec := "libx264", audioCodec := "aac" },
        ?_, ?_, ?_⟩
      · unfold create_video_with_voiceover
        simp [hao, hb, hvo, hz, hlt, writeOk, ClipExpr.clipDuration, henc, hd]
      · simp [ClipExpr.clipDuration]
      · unfold create_video_with_voiceover
        simp [hao, hb, hvo, hz, hlt, writeOk, ClipExpr.clipDuration, henc, hd]
  | false =>
    by_cases hi : pyTruthy image_path = true
    · have hio := himg hb hi
      refine ⟨{ clip := ClipExpr.setAudio (ClipExpr.resizeHeight
                  (ClipExpr.setDuration
                    (ClipExpr.imageFile (image_path.getD "") env.imageWidth env.imageHeight)
                    env.audioDuration) 720) audio_path,
                outPath := out_path, fps := some 24, codec := "libx264", audioCodec := "aac" },
        ?_, ?_, ?_⟩
      · unfold create_video_with_voiceover
        simp [hao, hb, hi, hio, writeOk, ClipExpr.clipDuration, henc, hd]
      · simp [ClipExpr.clipDuration]
      · unfold create_video_with_voiceover
        simp [hao, hb, hi, hio, writeOk, ClipExpr.clipDuration, henc, hd]
    · refine ⟨{ clip := ClipExpr.setAudio (ClipExpr.resizeHeight
                  (ClipExpr.setDuration (ClipExpr.blackFrame 1280 720)
                    env.audioDuration) 720) audio_path,
                outPath := out_path, fps := some 24, codec := "libx264", audioCodec := "aac" },
        ?_, ?_, ?_⟩
      · unfold create_video_with_voiceover
        simp [hao, hb, hi, writeOk, ClipExpr.clipDuration, henc, hd]
      · simp [ClipExpr.clipDuration]
      · unfold create_video_with_voiceover
        simp [hao, hb, hi, writeOk, ClipExpr.clipDuration, henc, hd]

theorem C2_output_duration_witness :
    envShortVideo.audioOpenOk = true ∧ envShortVideo.encoderOk = true ∧
    0 < envShortVideo.audioDuration ∧
    (pyTruthy (some "clip.mp4") = true →
      envShortVideo.videoOpenOk = true ∧ 0 < envShortVideo.videoDuration) ∧
    (pyTruthy (some "clip.mp4") = false → pyTruthy (none : Option String) = true →
      envShortVideo.imageOpenOk = true) ∧
    (∃ wr : WriteRecord,
      (create_video_with_voiceover envShortVideo "voice.mp3" (some "clip.mp4") none
        "out.mp4").written = some wr ∧
      wr.clip.clipDuration = envShortVideo.audioDuration ∧
      (create_video_with_voiceover envShortVideo "voice.mp3" (some "clip.mp4") none
        "out.mp4").result = some ("out.mp4", envShortVideo.audioDuration)) :=
  ⟨rfl, rfl, by norm_num [envShortVideo],
    fun _ => ⟨rfl, by norm_num [envShortVideo]⟩,
    fun h _ => absurd h (by decide),
    C2_output_duration envShortVideo "voice.mp3" "out.mp4" (some "clip.mp4") none rfl rfl
      (by norm_num [envShortVideo])
      (fun _ => ⟨rfl, by norm_num [envShortVideo]⟩)
      (fun h _ => absurd h (by decide))⟩

/-- C6 fails on the code as stated: on a healthy run with a supplied video
(2 s clip, 5 s narration, native frame height 480), the clip handed to the
encoder contains no resize operation at all — its rendered height stays
480, not 720.  Only the image/placeholder branch resizes. -/
theorem C6_resize_counterexample :
    (create_video_with_voiceover envShortVideo "voice.mp3" (some "clip.mp4") none
      "out.mp4").written
      = some { clip := ClipExpr.setAudio (ClipExpr.subclip (ClipExpr.concatCopies
                 (ClipExpr.videoFile "clip.mp4" 2 640 480) 3) 0 5) "voice.mp3",
               outPath := "out.mp4", fps := none, codec := "libx264", audioCodec := "aac" } ∧
    (ClipExpr.setAudio (ClipExpr.subclip (ClipExpr.concatCopies
      (ClipExpr.videoFile "clip.mp4" 2 640 480) 3) 0 5) "voice.mp3").hasResize = false ∧
    (ClipExpr.setAudio (ClipExpr.subclip (ClipExpr.concatCopies
      (ClipExpr.videoFile "clip.mp4" 2 640 480) 3) 0 5) "voice.mp3").renderHeight = 480 := by
  have hfl : ⌊(5:ℚ)/2⌋ = 2 := by
    rw [Int.floor_eq_iff]
    norm_num
  refine ⟨?_, by decide, by norm_num [ClipExpr.renderHeight]⟩
  unfold create_video_with_voiceover
  norm_num [envShortVideo, pyTruthy, writeOk, ClipExpr.clipDuration, hfl]
  rw [if_neg (by decide : ¬("clip.mp4" = ""))]
  rfl

/-- C6 amended: after visual-source resolution, only the supplied-image and
generated-placeholder visual tracks are resized to height 720 (immediately
before the audio is attached); the supplied-video track is written without
any resize, at its native resolution. -/
theorem C6_resize_policy (env : MediaEnv) (audio_path out_path : String)
    (video_path image_path : Option String) (wr : WriteRecord)
    (h : (create_video_with_voiceover env audio_path video_path image_path out_path).written
      = some wr) :
    wr.clip.resizedTo720BeforeAudio = !(pyTruthy video_path) ∧
    wr.clip.hasResize = !(pyTruthy video_path) := by
  unfold create_video_with_voiceover at h
  by_cases hao : env.audioOpenOk = false
  · simp [hao] at h
  · by_cases hb : pyTruthy video_path = true
    · by_cases hvo : env.videoOpenOk = false
      · simp [hao, hb, hvo] at h
      · by_cases hzz : env.videoDuration < env.audioDuration ∧ env.videoDuration = 0
        · obtain ⟨hlt0, hv0⟩ := hzz
          rw [hv0] at hlt0
          simp [hao, hb, hvo, hv0, hlt0] at h
        · by_cases hlt : env.videoDuration < env.audioDuration
          · simp [hao, hb, hvo, hlt, apply_ite ComposeTrace.written, ite_self] at h
            obtain ⟨-, h⟩ := h
            subst h
            simp [hb, ClipExpr.resizedTo720BeforeAudio, ClipExpr.hasResize]
          · simp [hao, hb, hvo, hlt, apply_ite ComposeTrace.written, ite_self] at h
            subst h
            simp [hb, ClipExpr.resizedTo720BeforeAudio, ClipExpr.hasResize]
    · by_cases hi : pyTruthy image_path = true
      · by_cases hio : env.imageOpenOk = false
        · simp [hao, hb, hi, hio] at h
        · simp [hao, hb, hi, hio, apply_ite ComposeTrace.written, ite_self] at h
          subst h
          simp [hb, ClipExpr.resizedTo720BeforeAudio, ClipExpr.hasResize]
      · simp [hao, hb, hi, apply_ite ComposeTrace.written, ite_self] at h
        subst h
        simp [hb, ClipExpr.resizedTo720BeforeAudio, ClipExpr.hasResize]

theorem C6_resize_policy_witness :
    ((create_video_with_voiceover envNoVisual "voice.mp3" none none "out.mp4").written
      = some { clip := ClipExpr.setAudio (ClipExpr.resizeHeight
                 (ClipExpr.setDuration (ClipExpr.blackFrame 1280 720) 5) 720) "voice.mp3",
               outPath := "out.mp4", fps := some 24, codec := "libx264",
               audioCodec := "aac" }) ∧
    (ClipExpr.setAudio (ClipExpr.resizeHeight
      (ClipExpr.setDuration (ClipExpr.blackFrame 1280 720) 5) 720)
        "voice.mp3").resizedTo720BeforeAudio = !(pyTruthy (none : Option String)) ∧
    (ClipExpr.setAudio (ClipExpr.resizeHeight
      (ClipExpr.setDuration (ClipExpr.blackFrame 1280 720) 5) 720)
        "voice.mp3").hasResize = !(pyTruthy (none : Option String)) :=
  ⟨by decide,
    (C6_resize_policy envNoVisual "voice.mp3" "out.mp4" none none
      { clip := ClipExpr.setAudio (ClipExpr.resizeHeight
          (ClipExpr.setDuration (ClipExpr.blackFrame 1280 720) 5) 720) "voice.mp3",
        outPath := "out.mp4", fps := some 24, codec := "libx264", audioCodec := "aac" }
      (by decide)).1,
    (C6_resize_policy envNoVisual "voice.mp3" "out.mp4" none none
      { clip := ClipExpr.setAudio (ClipExpr.resizeHeight
          (ClipExpr.setDuration (ClipExpr.blackFrame 1280 720) 5) 720) "voice.mp3",
        outPath := "out.mp4", fps := some 24, codec := "libx264", audioCodec := "aac" }
      (by decide)).2⟩

/-- A concrete environment in which the encoder fails on an otherwise
healthy run with a supplied 12 s video under a 5 s narration. -/
def envEncoderFail : MediaEnv :=
  { audioOpenOk := true, audioDuration := 5, videoOpenOk := true, videoDuration := 12,
    videoWidth := 640, videoHeight := 480, imageOpenOk := true, imageWidth := 800,
    imageHeight := 600, encoderOk := false }

/-- C9 fails on the code as stated: when the encoder raises, the run ends
with the audio handle (and the video clip) opened but no close call ever
issued — the source has no try/finally, so failure paths release nothing. -/
theorem C9_release_counterexample :
    (create_video_with_voiceover envEncoderFail "voice.mp3" (some "clip.mp4") none
      "out.mp4").result = none ∧
    Event.openAudio ∈ (create_video_with_voiceover envEncoderFail "voice.mp3"
      (some "clip.mp4") none "out.mp4").events ∧
    Event.openVideo ∈ (create_video_with_voiceover envEncoderFail "voice.mp3"
      (some "clip.mp4") none "out.mp4").events ∧
    Event.closeAudio ∉ (create_video_with_voiceover envEncoderFail "voice.mp3"
      (some "clip.mp4") none "out.mp4").events ∧
    Event.closeClip ∉ (create_video_with_voiceover envEncoderFail "voice.mp3"
      (some "clip.mp4") none "out.mp4").events := by
  decide

/-- C9 amended: the composer issues its close calls (final clip, then audio
clip) exactly on the success path, after the output file is written; on
every failure path — unreadable audio, unreadable visual source, the
zero-division on a zero-duration video, or an encoder error — no opened
handle is released. -/
theorem C9_release_success_only (env : MediaEnv) (audio_path out_path : String)
    (video_path image_path : Option String) :
    ((Event.closeAudio ∈ (create_video_with_voiceover env audio_path video_path image_path
        out_path).events) ↔
      (create_video_with_voiceover env audio_path video_path image_path
        out_path).result.isSome = true) ∧
    ((Event.closeClip ∈ (create_video_with_voiceover env audio_path video_path image_path
        out_path).events) ↔
      (create_video_with_voiceover env audio_path video_path image_path
        out_path).result.isSome = true) := by
  unfold create_video_with_voiceover
  by_cases hao : env.audioOpenOk = false
  · simp [hao]
  · by_cases hb : pyTruthy video_path = true
    · by_cases hvo : env.videoOpenOk = false
      · simp [hao, hb, hvo]
      · by_cases hzz : env.videoDuration < env.audioDuration ∧ env.videoDuration = 0
        · obtain ⟨hlt0, hv0⟩ := hzz
          rw [hv0] at hlt0
          simp [hao, hb, hvo, hv0, hlt0]
        · by_cases hlt : env.videoDuration < env.audioDuration
          · have hvne : env.videoDuration ≠ 0 := fun h0 => hzz ⟨hlt, h0⟩
            simp [hao, hb, hvo, hvne, hlt]
            split <;> simp
          · simp [hao, hb, hvo, hlt]
            split <;> simp
    · by_cases hi : pyTruthy image_path = true
      · by_cases hio : env.imageOpenOk = false
        · simp [hao, hb, hi, hio]
        · simp [hao, hb, hi, hio]
          split <;> simp
      · simp [hao, hb, hi]
        split <;> simp

/-- C8: every failure condition — unreadable audio, zero-duration audio (the
encoder is asked for a zero-length render and raises), unreadable visual
source, or encoder failure — ends the composer run with an error: no result
value is handed to the caller, so no partial output file is treated as
valid. -/
theorem C8_failures_propagate (env : MediaEnv) (audio_path out_path : String)
    (video_path image_path : Option String)
    (hvd : 0 ≤ env.videoDuration)
    (hfail : env.audioOpenOk = false ∨ env.audioDuration = 0 ∨
      (pyTruthy video_path = true ∧ env.videoOpenOk = false) ∨
      (pyTruthy video_path = false ∧ pyTruthy image_path = true ∧
        env.imageOpenOk = false) ∨
      env.encoderOk = false) :
    (create_video_with_voiceover env audio_path video_path image_path out_path).result
      = none := by
  unfold create_video_with_voiceover
  by_cases hao : env.audioOpenOk = false
  · simp [hao]
  · rcases hfail with h | h | ⟨hb, hvo⟩ | ⟨hb, hi, hio⟩ | henc
    · exact absurd h hao
    · by_cases hb : pyTruthy video_path = true
      · by_cases hvo : env.videoOpenOk = false
        · simp [hao, hb, hvo]
        · have hn0 : ¬ env.videoDuration < 0 := not_lt.mpr hvd
          simp [hao, hb, hvo, hn0, writeOk, ClipExpr.clipDuration, h]
      · by_cases hi : pyTruthy image_path = true
        · by_cases hio : env.imageOpenOk = false
          · simp [hao, hb, hi, hio]
          · simp [hao, hb, hi, hio, writeOk, ClipExpr.clipDuration, h]
        · simp [hao, hb, hi, writeOk, ClipExpr.clipDuration, h]
    · simp [hao, hb, hvo]
    · simp [hao, hb, hi, hio]
    · by_cases hb : pyTruthy video_path = true
      · by_cases hvo : env.videoOpenOk = false
        · simp [hao, hb, hvo]
        · by_cases hzz : env.videoDuration < env.audioDuration ∧ env.videoDuration = 0
          · obtain ⟨hlt0, hv0⟩ := hzz
            rw [hv0] at hlt0
            simp [hao, hb, hvo, hv0, hlt0]
          · by_cases hlt : env.videoDuration < env.audioDuration
            · have hvne : env.videoDuration ≠ 0 := fun h0 => hzz ⟨hlt, h0⟩
              simp [hao, hb, hvo, hvne, hlt, writeOk, henc]
            · simp [hao, hb, hvo, hlt, writeOk, henc]
      · by_cases hi : pyTruthy image_path = true
        · by_cases hio : env.imageOpenOk = false
          · simp [hao, hb, hi, hio]
          · simp [hao, hb, hi, hio, writeOk, henc]
        · simp [hao, hb, hi, writeOk, henc]

theorem C8_failures_propagate_witness :
    0 ≤ envEncoderFail.videoDuration ∧
    (envEncoderFail.audioOpenOk = false ∨ envEncoderFail.audioDuration = 0 ∨
      (pyTruthy (some "clip.mp4") = true ∧ envEncoderFail.videoOpenOk = false) ∨
      (pyTruthy (some "clip.mp4") = false ∧ pyTruthy (none : Option String) = true ∧
        envEncoderFail.imageOpenOk = false) ∨
      envEncoderFail.encoderOk = false) ∧
    (create_video_with_voiceover envEncoderFail "voice.mp3" (some "clip.mp4") none
      "out.mp4").result = none :=
  ⟨by norm_num [envEncoderFail], by decide,
    C8_failures_propagate envEncoderFail "voice.mp3" "out.mp4" (some "clip.mp4") none
      (by norm_num [envEncoderFail]) (by decide)⟩

/-- C10 fails on the code as stated: with both paths non-None but the video
path equal to the empty string (falsy in Python), `if video_path:` takes the
else branch and the output is produced from the image, not the video. -/
theorem C10_precedence_counterexample :
    (create_video_with_voiceover envShortVideo "voice.mp3" (some "") (some "pic.jpg")
      "out.mp4").written
      = some { clip := ClipExpr.setAudio (ClipExpr.resizeHeight
                 (ClipExpr.setDuration (ClipExpr.imageFile "pic.jpg" 800 600) 5) 720)
                 "voice.mp3",
               outPath := "out.mp4", fps := some 24, codec := "libx264",
               audioCodec := "aac" } ∧
    (ClipExpr.setAudio (ClipExpr.resizeHeight
      (ClipExpr.setDuration (ClipExpr.imageFile "pic.jpg" 800 600) 5) 720)
      "voice.mp3").baseSource = ClipExpr.imageFile "pic.jpg" 800 600 := by
  decide

/-- C10 amended: whenever the video path is truthy (non-None and non-empty),
it takes precedence — the run is identical for any value of the image path,
and the clip handed to the encoder is built from the video source. -/
theorem C10_video_precedence (env : MediaEnv) (audio_path out_path vp : String)
    (image_path image_path' : Option String)
    (hvp : vp ≠ "")
    (hao : env.audioOpenOk = true) (hvo : env.videoOpenOk = true)
    (henc : env.encoderOk = true)
    (hd : 0 < env.audioDuration) (hv : 0 < env.videoDuration) :
    create_video_with_voiceover env audio_path (some vp) image_path out_path
      = create_video_with_voiceover env audio_path (some vp) image_path' out_path ∧
    ∃ clipv : ClipExpr,
      (create_video_with_voiceover env audio_path (some vp) image_path out_path).written
        = some { clip := ClipExpr.setAudio clipv audio_path, outPath := out_path,
                 fps := none, codec := "libx264", audioCodec := "aac" } ∧
      clipv.baseSource
        = ClipExpr.videoFile vp env.videoDuration env.videoWidth env.videoHeight := by
  constructor
  · unfold create_video_with_voiceover
    simp [pyTruthy, hvp]
  · have hz : ¬(env.videoDuration < env.audioDuration ∧ env.videoDuration = 0) := by
      rintro ⟨_, h0⟩
      exact absurd h0 (ne_of_gt hv)
    by_cases hlt : env.videoDuration < env.audioDuration
    · refine ⟨ClipExpr.subclip (ClipExpr.concatCopies
          (ClipExpr.videoFile vp env.videoDuration env.videoWidth env.videoHeight)
          (⌊env.audioDuration / env.videoDuration⌋ + 1).toNat) 0 env.audioDuration, ?_, ?_⟩
      · unfold create_video_with_voiceover
        simp [hao, hvo, pyTruthy, hvp, hz, hlt, hv.ne', writeOk, ClipExpr.clipDuration,
          henc, hd]
      · simp [ClipExpr.baseSource]
    · refine ⟨ClipExpr.subclip
          (ClipExpr.videoFile vp env.videoDuration env.videoWidth env.videoHeight)
          0 env.audioDuration, ?_, ?_⟩
      · unfold create_video_with_voiceover
        simp [hao, hvo, pyTruthy, hvp, hz, hlt, writeOk, ClipExpr.clipDuration, henc, hd]
      · simp [ClipExpr.baseSource]

theorem C10_video_precedence_witness :
    "clip.mp4" ≠ "" ∧ envShortVideo.audioOpenOk = true ∧
    envShortVideo.videoOpenOk = true ∧ envShortVideo.encoderOk = true ∧
    0 < envShortVideo.audioDuration ∧ 0 < envShortVideo.videoDuration ∧
    (create_video_with_voiceover envShortVideo "voice.mp3" (some "clip.mp4")
        (some "pic.jpg") "out.mp4"
      = create_video_with_voiceover envShortVideo "voice.mp3" (some "clip.mp4") none
        "out.mp4" ∧
    ∃ clipv : ClipExpr,
      (create_video_with_voiceover envShortVideo "voice.mp3" (some "clip.mp4")
        (some "pic.jpg") "out.mp4").written
        = some { clip := ClipExpr.setAudio clipv "voice.mp3", outPath := "out.mp4",
                 fps := none, codec := "libx264", audioCodec := "aac" } ∧
      clipv.baseSource
        = ClipExpr.videoFile "clip.mp4" envShortVideo.videoDuration
            envShortVideo.videoWidth envShortVideo.videoHeight) :=
  ⟨by decide, rfl, rfl, rfl, by norm_num [envShortVideo], by norm_num [envShortVideo],
    C10_video_precedence envShortVideo "voice.mp3" "out.mp4" "clip.mp4"
      (some "pic.jpg") none (by decide) rfl rfl rfl
      (by norm_num [envShortVideo]) (by norm_num [envShortVideo])⟩

end Ai
